import Mathlib

/-
Verification development for the text-rendering tool in main.py.

The Python source is shallowly embedded: pure functions become Lean
functions; the render pipeline becomes a function producing the list of
drawing operations it performs together with an optional error; Python
int()/uint8 truncation is modelled explicitly. The gradient interpolation,
which the program computes in IEEE float64, is idealized here as exact
rational arithmetic: the modelled pixel values can differ from the
program's where rounding crosses an integer boundary, so no result below
asserts the numeric value of an interpolated pixel; the remaining uses of
the gradient depend only on which inputs it reads and whether it succeeds.
-/

/-- Python truncation toward zero, as performed by the built-in int() on a
number: floor for nonnegative values, ceiling for negative ones. -/
def ratTrunc (q : ℚ) : ℤ := if 0 ≤ q then ⌊q⌋ else ⌈q⌉

/-- Character class [A-Fa-f0-9] of HEX_COLOR_REGEX (main.py line 18). -/
def isHexDigitPy (c : Char) : Bool :=
  (decide ('0' ≤ c) && decide (c ≤ '9')) ||
  (decide ('a' ≤ c) && decide (c ≤ 'f')) ||
  (decide ('A' ≤ c) && decide (c ≤ 'F'))

/-- re.match(HEX_COLOR_REGEX, s) with HEX_COLOR_REGEX = "^#([A-Fa-f0-9]{6})$".
re.match anchors at the start of the string; in Python the dollar anchor
matches at the end of the string or just before a single newline that ends
the string, so a valid hex color followed by one trailing newline also
matches. -/
def re_match_hex_color (s : String) : Bool :=
  match s.data with
  | c :: rest =>
      c == '#' &&
      ((decide (rest.length = 6) && rest.all isHexDigitPy) ||
       (decide (rest.length = 7) && (rest.take 6).all isHexDigitPy &&
         decide (rest.getLast? = some '\n')))
  | [] => false

/-- Value of one hexadecimal digit as understood by Python int(_, 16). -/
def hexDigitVal (c : Char) : Option ℕ :=
  if decide ('0' ≤ c) && decide (c ≤ '9') then some (c.toNat - '0'.toNat)
  else if decide ('a' ≤ c) && decide (c ≤ 'f') then some (c.toNat - 'a'.toNat + 10)
  else if decide ('A' ≤ c) && decide (c ≤ 'F') then some (c.toNat - 'A'.toNat + 10)
  else none

/-- Python int(s, 16) restricted to the digit-only slices that hex_to_rgba
extracts: the empty slice raises ValueError (none here); sign characters,
whitespace or an 0x prefix cannot occur in those two-character slices. -/
def parseHexStr (l : List Char) : Option ℕ :=
  match l with
  | [] => none
  | _ => l.foldl
      (fun acc c =>
        match acc, hexDigitVal c with
        | some n, some d => some (16 * n + d)
        | _, _ => none)
      (some 0)

/-- A 4-channel color as returned by hex_to_rgba: r, g, b are parsed hex
bytes, a is the Python int() of 255 times the opacity. -/
structure Rgba where
  r : ℕ
  g : ℕ
  b : ℕ
  a : ℤ
deriving DecidableEq

/-- hex_to_rgba(hex_color, opacity) from main.py lines 101-104: strips all
leading number-sign characters, parses the slices [0:2], [2:4], [4:6] of the
remainder as hexadecimal bytes, and sets alpha to int(255 * opacity).
Python raises on malformed input; that is modelled as none. -/
def hex_to_rgba (hex_color : String) (opacity : ℚ) : Option Rgba :=
  let cs := hex_color.data.dropWhile (· == '#')
  match parseHexStr (cs.take 2), parseHexStr ((cs.drop 2).take 2),
        parseHexStr ((cs.drop 4).take 2) with
  | some r, some g, some b => some ⟨r, g, b, ratTrunc (255 * opacity)⟩
  | _, _, _ => none

/-- A pixel of the gradient raster: four uint8 channels. -/
structure Px8 where
  r : ℕ
  g : ℕ
  b : ℕ
  a : ℕ
deriving DecidableEq, Inhabited

/-- One channel of a gradient row or column: the value
(1 - i/N) * a + (i/N) * b stored into a uint8 numpy cell (a C-style cast:
truncation toward zero, then the byte). The program computes this in IEEE
float64; here the arithmetic is exact rational, an idealization: for
example at N = 3, a = 1, b = 25, i = 1 the float64 result is just below 9
and truncates to 8, while this definition yields 9. Pixel values of this
model are therefore not relied upon anywhere below. -/
def gradChannel (a b : ℚ) (i N : ℕ) : ℕ :=
  (ratTrunc ((1 - (i : ℚ) / (N : ℚ)) * a + (i : ℚ) / (N : ℚ) * b)).toNat % 256

/-- The interpolated color written by iteration i of the loop in
create_gradient, applied per channel including alpha. -/
def gradPixel (c1 c2 : Rgba) (i N : ℕ) : Px8 :=
  ⟨gradChannel (c1.r : ℚ) (c2.r : ℚ) i N,
   gradChannel (c1.g : ℚ) (c2.g : ℚ) i N,
   gradChannel (c1.b : ℚ) (c2.b : ℚ) i N,
   gradChannel (c1.a : ℚ) (c2.a : ℚ) i N⟩

/-- create_gradient(size, colors, direction) from main.py lines 112-127.
The numpy array np.zeros((height, width, 4)) is filled row by row for a
vertical direction (any other direction value, including None, takes the
column branch, because Python compares direction == "vertical"); every cell
is assigned exactly once, so the result is the map below. colors[0] or
colors[1] missing, or a color hex_to_rgba cannot parse, raises in Python:
modelled as none. Pixel values inherit gradChannel's exact-rational
idealization of the program's float64 arithmetic and may differ from the
program's raster; results below use this definition only for its success
or failure and for which style fields and colors it consumes. -/
def create_gradient (size : ℕ × ℕ) (colors : List String)
    (direction : Option String) : Option (List (List Px8)) :=
  let width := size.1
  let height := size.2
  match colors.get? 0, colors.get? 1 with
  | some s1, some s2 =>
    match hex_to_rgba s1 1, hex_to_rgba s2 1 with
    | some c1, some c2 =>
        some ((List.range height).map fun i =>
          (List.range width).map fun j =>
            if direction = some "vertical" then gradPixel c1 c2 i height
            else gradPixel c1 c2 j width)
    | _, _ => none
  | _, _ => none

/-- FillModel (main.py lines 21-43): type is Literal["solid", "gradient"],
the other three fields are optional with default None. -/
structure FillModel where
  type : String
  color : Option String := none
  colors : Option (List String) := none
  direction : Option String := none
deriving DecidableEq

/-- FillModel.validate_color: the body is "if v and not re.match(...): raise",
so validation fails exactly when the value is truthy (present and nonempty)
and does not match the pattern. -/
def FillModel.color_ok : Option String → Bool
  | none => true
  | some s => !(!(s == "") && !re_match_hex_color s)

/-- FillModel.validate_colors: "if v:" skips an absent or empty list, else
every entry must match the pattern. -/
def FillModel.colors_ok : Option (List String) → Bool
  | none => true
  | some l => if l == [] then true else l.all re_match_hex_color

/-- Whether a FillModel value passes pydantic validation: the Literal
constraint on type and direction, plus the two field validators. -/
def FillModel.isValidB (f : FillModel) : Bool :=
  (f.type == "solid" || f.type == "gradient") &&
  FillModel.color_ok f.color &&
  FillModel.colors_ok f.colors &&
  (match f.direction with
   | none => true
   | some d => d == "vertical" || d == "horizontal")

/-- StrokeModel (main.py lines 46-58). -/
structure StrokeModel where
  enabled : Bool
  width : ℤ
  color : String
deriving DecidableEq

/-- StrokeModel.validate_color: unconditional re.match check (no falsy skip). -/
def StrokeModel.color_ok (v : String) : Bool := re_match_hex_color v

/-- Whether a StrokeModel value passes validation: width in [0, 100] and the
color validator. -/
def StrokeModel.isValidB (s : StrokeModel) : Bool :=
  (decide (0 ≤ s.width) && decide (s.width ≤ 100)) && StrokeModel.color_ok s.color

/-- ShadowModel (main.py lines 61-75), also used for outer_glow and
inner_shadow. -/
structure ShadowModel where
  enabled : Bool
  offset : List ℤ
  blur : ℤ
  color : String
  opacity : ℚ
deriving DecidableEq

/-- ShadowModel.validate_color: unconditional re.match check. -/
def ShadowModel.color_ok (v : String) : Bool := re_match_hex_color v

/-- Whether a ShadowModel value passes validation: blur in [0, 200],
opacity in [0, 1], and the color validator; offset is List[int] with no
length constraint. -/
def ShadowModel.isValidB (s : ShadowModel) : Bool :=
  (decide (0 ≤ s.blur) && decide (s.blur ≤ 200)) &&
  ShadowModel.color_ok s.color &&
  (decide (0 ≤ s.opacity) && decide (s.opacity ≤ 1))

/-- StyleModel (main.py lines 78-94). -/
structure StyleModel where
  font_path : String
  font_size : ℤ
  center : List ℤ
  fill : FillModel
  stroke : StrokeModel
  shadow : ShadowModel
  outer_glow : ShadowModel
  inner_shadow : ShadowModel
  letter_spacing : ℤ
  line_height : ℚ
  rotation : ℚ
  opacity : ℚ
deriving DecidableEq

/-- Whether a StyleModel value passes validation: the Field range constraints
of main.py lines 82-94 plus the nested model validators. center is List[int]
with no length constraint. -/
def StyleModel.isValidB (s : StyleModel) : Bool :=
  (decide (0 < s.font_size) && decide (s.font_size ≤ 500)) &&
  s.fill.isValidB && s.stroke.isValidB &&
  s.shadow.isValidB && s.outer_glow.isValidB && s.inner_shadow.isValidB &&
  (decide (0 ≤ s.letter_spacing) && decide (s.letter_spacing ≤ 100)) &&
  (decide (0 < s.line_height) && decide (s.line_height ≤ 5)) &&
  (decide (-360 ≤ s.rotation) && decide (s.rotation ≤ 360)) &&
  (decide (0 ≤ s.opacity) && decide (s.opacity ≤ 1))

/-- The observable drawing and output operations performed by render, in
order. strokeText records the fill argument of the stroke pass explicitly
(the source passes fill=None there). -/
inductive DrawOp where
  | fillText (pos : ℤ × ℤ) (text : String) (fill : Rgba)
  | maskText (pos : ℤ × ℤ) (text : String)
  | pasteGradient (grad : List (List Px8))
  | strokeText (pos : ℤ × ℤ) (text : String) (strokeWidth : ℤ)
      (fill : Option Rgba) (strokeFill : Rgba)
  | compositeLayer
  | rotateImage (angle : ℚ)
  | saveImage (path : String)
deriving DecidableEq

/-- The exceptions render can raise, by raising site. -/
inductive RenderError where
  | fontNotFound
  | imageOpenError
  | fontLoadError
  | centerIndexError
  | fillColorError
  | gradientColorsError
  | strokeColorError
deriving DecidableEq

/-- Environment abstracting the external collaborators of render: whether
the font path exists, whether PIL can open and decode the base image and
load the font, the base image pixel size, the text shaper (arabic_reshaper
plus bidi reordering, a pure external function), and the bounding box
draw.textbbox((0, 0), shaped_text, font) reports. -/
structure RenderEnv where
  fontExists : Bool
  imageOk : Bool
  fontLoadOk : Bool
  imgW : ℕ
  imgH : ℕ
  shape : String → String
  bbox : ℤ × ℤ × ℤ × ℤ

/-- The fill pass of render (main.py lines 152-164): solid draws the text
with hex_to_rgba(fill.color, opacity); gradient first draws the coverage
mask, then calls create_gradient and pastes it. A None solid color raises
inside hex_to_rgba's lstrip (no operation performed); a gradient colors
failure raises inside create_gradient, after the mask text was drawn. -/
def fillStep (style : StyleModel) (pos : ℤ × ℤ) (shaped : String)
    (imgW imgH : ℕ) : List DrawOp × Option RenderError :=
  if style.fill.type == "solid" then
    match style.fill.color with
    | none => ([], some .fillColorError)
    | some c =>
      match hex_to_rgba c style.opacity with
      | none => ([], some .fillColorError)
      | some rgba => ([.fillText pos shaped rgba], none)
  else
    match style.fill.colors with
    | none => ([.maskText pos shaped], some .gradientColorsError)
    | some cs =>
      match create_gradient (imgW, imgH) cs style.fill.direction with
      | none => ([.maskText pos shaped], some .gradientColorsError)
      | some g => ([.maskText pos shaped, .pasteGradient g], none)

/-- The stroke pass of render (main.py lines 166-173): when enabled, the
text is drawn again at the same origin with fill=None, the configured
stroke width, and stroke_fill converted at the default opacity 1. The
stroke_fill argument is evaluated before the draw call, so a conversion
failure performs no operation. -/
def strokeStep (style : StyleModel) (pos : ℤ × ℤ) (shaped : String) :
    List DrawOp × Option RenderError :=
  if style.stroke.enabled then
    match hex_to_rgba style.stroke.color 1 with
    | none => ([], some .strokeColorError)
    | some sc => ([.strokeText pos shaped style.stroke.width none sc], none)
  else ([], none)

/-- The draw origin of render (main.py lines 145-150): w and h are the
bounding box extents bbox[2] - bbox[0] and bbox[3] - bbox[1], and the
origin is (center[0] - w // 2, center[1] - h // 2) with Python floor
division. -/
def drawOrigin (env : RenderEnv) (cx cy : ℤ) : ℤ × ℤ :=
  (cx - Int.fdiv (env.bbox.2.2.1 - env.bbox.1) 2,
   cy - Int.fdiv (env.bbox.2.2.2 - env.bbox.2.1) 2)

/-- render(image_path, output_path, text, style) from main.py lines 134-181:
font existence check, image open, font load, text shaping, bounding box
measurement, origin computation x = center[0] - w // 2 (Python floor
division) and y = center[1] - h // 2, fill pass, stroke pass, alpha
compositing, optional rotation, and save. The result is the ordered list of
operations performed and the exception raised, if any; an exception aborts
the run, so everything after the raising site is absent from the list.
center[0] and center[1] raise IndexError when the center list is too
short, before any drawing. -/
def render (env : RenderEnv) (output_path text : String) (style : StyleModel) :
    List DrawOp × Option RenderError :=
  if !env.fontExists then ([], some .fontNotFound)
  else if !env.imageOk then ([], some .imageOpenError)
  else if !env.fontLoadOk then ([], some .fontLoadError)
  else
    match style.center.get? 0, style.center.get? 1 with
    | some cx, some cy =>
      let shaped := env.shape text
      let pos : ℤ × ℤ := drawOrigin env cx cy
      match fillStep style pos shaped env.imgW env.imgH with
      | (ops1, some e) => (ops1, some e)
      | (ops1, none) =>
        match strokeStep style pos shaped with
        | (ops2, some e) => (ops1 ++ ops2, some e)
        | (ops2, none) =>
          (ops1 ++ ops2 ++ [.compositeLayer] ++
            (if style.rotation ≠ 0 then [.rotateImage style.rotation] else []) ++
            [.saveImage output_path], none)
    | _, _ => ([], some .centerIndexError)

/-- The numeric value encoded by a hexadecimal digit (0 for any other
character); used to state what the parsed bytes of a well-formed color are. -/
def hexVal (c : Char) : ℕ := (hexDigitVal c).getD 0

/-- Modelled from the spec wording of the centering step, for comparison
with the code: origin = center − box_dimensions/2, with the subtraction
performed first and the result then integer-truncated. -/
def specDrawOrigin (center : ℤ × ℤ) (w h : ℤ) : ℤ × ℤ :=
  (ratTrunc ((center.1 : ℚ) - (w : ℚ) / 2),
   ratTrunc ((center.2 : ℚ) - (h : ℚ) / 2))

/-- The character class [A-Fa-f0-9] as the claim states it. -/
def specHexChar (c : Char) : Prop :=
  ('0' ≤ c ∧ c ≤ '9') ∨ ('a' ≤ c ∧ c ≤ 'f') ∨ ('A' ≤ c ∧ c ≤ 'F')

/-- A string that fully matches the claim's pattern: a number sign followed
by exactly six hexadecimal digits and nothing else. -/
def specHexColor (s : String) : Prop :=
  ∃ t : List Char, s.data = '#' :: t ∧ t.length = 6 ∧ ∀ c ∈ t, specHexChar c

/-- A full pattern match followed by exactly one trailing newline, the one
extra form Python's dollar anchor accepts. -/
def specHexColorNL (s : String) : Prop :=
  ∃ t : List Char, s.data = '#' :: (t ++ ['\n']) ∧ t.length = 6 ∧
    ∀ c ∈ t, specHexChar c

/-- A shadow configuration that passes validation, used as a fixture. -/
def baseShadow : ShadowModel :=
  { enabled := false, offset := [0, 0], blur := 0, color := "#000000", opacity := 1 }

/-- A style that passes validation: solid red fill, stroke disabled,
center (100, 100), no rotation, full opacity. Fixture for concrete runs. -/
def baseStyle : StyleModel :=
  { font_path := "font.ttf"
    font_size := 32
    center := [100, 100]
    fill := { type := "solid", color := some "#FF0000" }
    stroke := { enabled := false, width := 2, color := "#000000" }
    shadow := baseShadow
    outer_glow := baseShadow
    inner_shadow := baseShadow
    letter_spacing := 0
    line_height := 1
    rotation := 0
    opacity := 1 }

/-- An environment in which every external step succeeds: the font exists,
the image decodes, the font loads, the base image is 200 by 200, the shaper
is the identity on the plain ASCII fixtures used here, and the measured
bounding box is (0, 0, 7, 7). -/
def env0 : RenderEnv :=
  { fontExists := true, imageOk := true, fontLoadOk := true
    imgW := 200, imgH := 200, shape := id, bbox := (0, 0, 7, 7) }

/-- env0 with a missing font file. -/
def envNoFont : RenderEnv :=
  { env0 with fontExists := false }

/-- baseStyle with the stroke pass enabled. -/
def strokeStyle : StyleModel :=
  { baseStyle with stroke := { enabled := true, width := 2, color := "#000000" } }

/-- baseStyle with a two-stop vertical gradient fill. -/
def gradStyle : StyleModel :=
  { baseStyle with
    fill := { type := "gradient"
              colors := some ["#000000", "#FFFFFF"]
              direction := some "vertical" } }

/-- baseStyle with a gradient fill that carries neither colors nor a
direction. -/
def gradNoColorsStyle : StyleModel :=
  { baseStyle with fill := { type := "gradient" } }

/-- baseStyle with a solid fill that carries no color. -/
def solidNoColorStyle : StyleModel :=
  { baseStyle with fill := { type := "solid" } }

/-- baseStyle with a one-element center list. -/
def shortCenterStyle : StyleModel :=
  { baseStyle with center := [100] }

theorem hex_to_rgba_eq (s : String) (r g b : ℕ)
    (h1 : parseHexStr ((s.data.dropWhile (· == '#')).take 2) = some r)
    (h2 : parseHexStr (((s.data.dropWhile (· == '#')).drop 2).take 2) = some g)
    (h3 : parseHexStr (((s.data.dropWhile (· == '#')).drop 4).take 2) = some b)
    (o : ℚ) : hex_to_rgba s o = some ⟨r, g, b, ratTrunc (255 * o)⟩ := by
  simp only [hex_to_rgba]
  rw [h1, h2, h3]

theorem ratTrunc_255_one : ratTrunc (255 * 1) = 255 := by norm_num [ratTrunc]

theorem hex_red : hex_to_rgba "#FF0000" 1 = some ⟨255, 0, 0, 255⟩ := by
  rw [hex_to_rgba_eq "#FF0000" 255 0 0 (by decide) (by decide) (by decide) 1,
    ratTrunc_255_one]

theorem hex_black : hex_to_rgba "#000000" 1 = some ⟨0, 0, 0, 255⟩ := by
  rw [hex_to_rgba_eq "#000000" 0 0 0 (by decide) (by decide) (by decide) 1,
    ratTrunc_255_one]

theorem hex_white : hex_to_rgba "#FFFFFF" 1 = some ⟨255, 255, 255, 255⟩ := by
  rw [hex_to_rgba_eq "#FFFFFF" 255 255 255 (by decide) (by decide) (by decide) 1,
    ratTrunc_255_one]

theorem hexDigitVal_isSome (c : Char) (h : isHexDigitPy c = true) :
    hexDigitVal c = some (hexVal c) := by
  unfold hexVal
  unfold isHexDigitPy at h
  unfold hexDigitVal
  split_ifs with h1 h2 h3
  · rfl
  · rfl
  · rfl
  · simp only [Bool.not_eq_true] at h1 h2 h3
    rw [h1, h2, h3] at h
    simp at h

theorem hexVal_le (c : Char) : hexVal c ≤ 15 := by
  unfold hexVal hexDigitVal
  split_ifs with h1 h2 h3
  · simp only [Bool.and_eq_true] at h1
    have hb : c.toNat ≤ 57 := of_decide_eq_true h1.2
    have h0 : Char.toNat '0' = 48 := rfl
    simp only [Option.getD_some]
    omega
  · simp only [Bool.and_eq_true] at h2
    have hb : c.toNat ≤ 102 := of_decide_eq_true h2.2
    have h0 : Char.toNat 'a' = 97 := rfl
    have ha : 97 ≤ c.toNat := of_decide_eq_true h2.1
    simp only [Option.getD_some]
    omega
  · simp only [Bool.and_eq_true] at h3
    have hb : c.toNat ≤ 70 := of_decide_eq_true h3.2
    have h0 : Char.toNat 'A' = 65 := rfl
    have ha : 65 ≤ c.toNat := of_decide_eq_true h3.1
    simp only [Option.getD_some]
    omega
  · simp

theorem hex_ne_hash (c : Char) (h : isHexDigitPy c = true) : (c == '#') = false := by
  cases e : c == '#'
  · rfl
  · rw [beq_iff_eq.mp e] at h
    exact absurd h (by decide)

theorem parseHexStr_pair (a b : Char) (ha : isHexDigitPy a = true)
    (hb : isHexDigitPy b = true) :
    parseHexStr [a, b] = some (16 * hexVal a + hexVal b) := by
  simp [parseHexStr, hexDigitVal_isSome a ha, hexDigitVal_isSome b hb]

theorem hash_dropWhile (d : Char) (rest : List Char) (hd : isHexDigitPy d = true) :
    (('#' :: d :: rest).dropWhile (· == '#')) = d :: rest := by
  simp [List.dropWhile, hex_ne_hash d hd]

theorem re_match_shape (s : String) (hs : re_match_hex_color s = true) :
    ∃ d1 d2 d3 d4 d5 d6 t, s.data = '#' :: d1 :: d2 :: d3 :: d4 :: d5 :: d6 :: t ∧
      (t = [] ∨ t = ['\n']) ∧
      isHexDigitPy d1 = true ∧ isHexDigitPy d2 = true ∧ isHexDigitPy d3 = true ∧
      isHexDigitPy d4 = true ∧ isHexDigitPy d5 = true ∧ isHexDigitPy d6 = true := by
  unfold re_match_hex_color at hs
  rcases e : s.data with _ | ⟨c0, rest⟩
  · rw [e] at hs
    simp at hs
  rw [e] at hs
  simp only [Bool.and_eq_true, Bool.or_eq_true, beq_iff_eq, decide_eq_true_eq] at hs
  obtain ⟨hc0, hrest⟩ := hs
  subst hc0
  rcases rest with _ | ⟨d1, rest⟩
  · simp at hrest
  rcases rest with _ | ⟨d2, rest⟩
  · simp at hrest
  rcases rest with _ | ⟨d3, rest⟩
  · simp at hrest
  rcases rest with _ | ⟨d4, rest⟩
  · simp at hrest
  rcases rest with _ | ⟨d5, rest⟩
  · simp at hrest
  rcases rest with _ | ⟨d6, rest⟩
  · simp at hrest
  rcases hrest with ⟨hlen, hall⟩ | ⟨⟨hlen, hall⟩, hlast⟩
  · rcases rest with _ | ⟨d7, rest⟩
    · simp only [List.all_cons, Bool.and_eq_true, List.all_nil] at hall
      exact ⟨d1, d2, d3, d4, d5, d6, [], rfl, Or.inl rfl,
        hall.1, hall.2.1, hall.2.2.1, hall.2.2.2.1, hall.2.2.2.2.1,
        hall.2.2.2.2.2.1⟩
    · simp at hlen
  · rcases rest with _ | ⟨d7, rest⟩
    · simp at hlen
    rcases rest with _ | ⟨d8, rest⟩
    · simp only [List.take, List.all_cons, Bool.and_eq_true, List.all_nil] at hall
      have h7 : d7 = '\n' := by
        simpa using hlast
      exact ⟨d1, d2, d3, d4, d5, d6, [d7], rfl, Or.inr (by rw [h7]),
        hall.1, hall.2.1, hall.2.2.1, hall.2.2.2.1, hall.2.2.2.2.1,
        hall.2.2.2.2.2.1⟩
    · simp at hlen

/-- C3 (amended): for every well-formed 6-digit hex color string and every
opacity in [0, 1], hex_to_rgba returns the three byte values encoded by the
hex digits, each in [0, 255], and an alpha equal to 255 times the opacity
truncated toward zero (int(255 * opacity), not rounded), lying in [0, 255]. -/
theorem hex_to_rgba_formula (d1 d2 d3 d4 d5 d6 : Char)
    (h1 : isHexDigitPy d1 = true) (h2 : isHexDigitPy d2 = true)
    (h3 : isHexDigitPy d3 = true) (h4 : isHexDigitPy d4 = true)
    (h5 : isHexDigitPy d5 = true) (h6 : isHexDigitPy d6 = true)
    (o : ℚ) (ho0 : 0 ≤ o) (ho1 : o ≤ 1) :
    hex_to_rgba (String.mk ['#', d1, d2, d3, d4, d5, d6]) o =
      some ⟨16 * hexVal d1 + hexVal d2, 16 * hexVal d3 + hexVal d4,
            16 * hexVal d5 + hexVal d6, ratTrunc (255 * o)⟩ ∧
    16 * hexVal d1 + hexVal d2 ≤ 255 ∧ 16 * hexVal d3 + hexVal d4 ≤ 255 ∧
    16 * hexVal d5 + hexVal d6 ≤ 255 ∧
    0 ≤ ratTrunc (255 * o) ∧ ratTrunc (255 * o) ≤ 255 := by
  have hq0 : (0 : ℚ) ≤ 255 * o := by positivity
  refine ⟨?_, ?_, ?_, ?_, ?_, ?_⟩
  · simp only [hex_to_rgba]
    rw [hash_dropWhile d1 _ h1]
    have e1 : (d1 :: d2 :: d3 :: d4 :: d5 :: d6 :: ([] : List Char)).take 2 =
        [d1, d2] := rfl
    have e2 : ((d1 :: d2 :: d3 :: d4 :: d5 :: d6 :: ([] : List Char)).drop 2).take 2 =
        [d3, d4] := rfl
    have e3 : ((d1 :: d2 :: d3 :: d4 :: d5 :: d6 :: ([] : List Char)).drop 4).take 2 =
        [d5, d6] := rfl
    rw [e1, e2, e3, parseHexStr_pair d1 d2 h1 h2, parseHexStr_pair d3 d4 h3 h4,
      parseHexStr_pair d5 d6 h5 h6]
  · have := hexVal_le d1
    have := hexVal_le d2
    omega
  · have := hexVal_le d3
    have := hexVal_le d4
    omega
  · have := hexVal_le d5
    have := hexVal_le d6
    omega
  · rw [ratTrunc, if_pos hq0]
    exact Int.floor_nonneg.mpr hq0
  · rw [ratTrunc, if_pos hq0]
    have hle : (255 : ℚ) * o ≤ 255 := by nlinarith
    have h255 : (⌊(255 : ℚ)⌋ : ℤ) = 255 := by norm_num
    calc ⌊(255 : ℚ) * o⌋ ≤ ⌊(255 : ℚ)⌋ := Int.floor_le_floor hle
      _ = 255 := h255

/-- Witness for the amended C3 at the spec's own example color. -/
theorem hex_to_rgba_formula_witness :
    isHexDigitPy 'F' = true ∧ (0 : ℚ) ≤ 1 ∧
    hex_to_rgba (String.mk ['#', 'F', 'F', '0', '0', 'A', 'A']) 1 =
      some ⟨255, 0, 170, 255⟩ := by
  refine ⟨by decide, by norm_num, ?_⟩
  have h := hex_to_rgba_formula 'F' 'F' '0' '0' 'A' 'A' (by decide) (by decide)
    (by decide) (by decide) (by decide) (by decide) 1 (by norm_num) (by norm_num)
  rw [h.1, ratTrunc_255_one]
  decide

/-- C3 as stated is refuted at opacity one half: the code truncates
int(255 * 0.5) to alpha 127, whereas round(255 * 0.5) = 128. -/
theorem hex_to_rgba_round_counterexample :
    hex_to_rgba "#FF00AA" (1 / 2) = some ⟨255, 0, 170, 127⟩ ∧
    round ((255 : ℚ) * (1 / 2)) = 128 ∧ (127 : ℤ) ≠ 128 := by
  refine ⟨?_, ?_, by decide⟩
  · rw [hex_to_rgba_eq "#FF00AA" 255 0 170 (by decide) (by decide) (by decide) (1 / 2)]
    norm_num [ratTrunc]
  · rw [round_eq]
    norm_num

/-- C2 as stated is refuted at center (100, 100) with a measured 7 by 7 box:
render computes center[0] - w // 2 = 100 - 3 = 97 and draws at (97, 97),
while truncating after the subtraction, trunc(100 - 7/2) = trunc(96.5),
gives (96, 96). -/
theorem render_origin_counterexample :
    (render env0 "o.png" "Hi" baseStyle).1 =
      [DrawOp.fillText (97, 97) "Hi" ⟨255, 0, 0, 255⟩, DrawOp.compositeLayer,
       DrawOp.saveImage "o.png"] ∧
    specDrawOrigin (100, 100) 7 7 = (96, 96) ∧
    ((97 : ℤ), (97 : ℤ)) ≠ ((96 : ℤ), (96 : ℤ)) := by
  refine ⟨?_, ?_, by decide⟩
  · simp [render, fillStep, strokeStep, drawOrigin, env0, baseStyle, hex_red, Int.fdiv]
  · unfold specDrawOrigin
    norm_num [ratTrunc]

/-- C2 (amended): the draw origin used by render for both the fill pass
(solid or gradient mask) and the stroke pass is
(center[0] - w // 2, center[1] - h // 2): half the box dimension is
floor-divided first and then subtracted from the center coordinate. For odd
dimensions this is one more than truncating center - dim/2 after the
subtraction. -/
theorem render_origin (env : RenderEnv) (out text : String) (style : StyleModel)
    (hf : env.fontExists = true) (hio : env.imageOk = true)
    (hl : env.fontLoadOk = true) (cx cy : ℤ)
    (hc0 : style.center.get? 0 = some cx) (hc1 : style.center.get? 1 = some cy) :
    (style.fill.type = "solid" → ∀ c rgba sc, style.fill.color = some c →
      hex_to_rgba c style.opacity = some rgba →
      style.stroke.enabled = true → hex_to_rgba style.stroke.color 1 = some sc →
      render env out text style =
        ([DrawOp.fillText
            (cx - Int.fdiv (env.bbox.2.2.1 - env.bbox.1) 2,
             cy - Int.fdiv (env.bbox.2.2.2 - env.bbox.2.1) 2) (env.shape text) rgba,
          DrawOp.strokeText
            (cx - Int.fdiv (env.bbox.2.2.1 - env.bbox.1) 2,
             cy - Int.fdiv (env.bbox.2.2.2 - env.bbox.2.1) 2) (env.shape text)
            style.stroke.width none sc,
          DrawOp.compositeLayer] ++
          (if style.rotation ≠ 0 then [DrawOp.rotateImage style.rotation] else []) ++
          [DrawOp.saveImage out], none)) ∧
    (style.fill.type ≠ "solid" → ∀ cs g sc, style.fill.colors = some cs →
      create_gradient (env.imgW, env.imgH) cs style.fill.direction = some g →
      style.stroke.enabled = true → hex_to_rgba style.stroke.color 1 = some sc →
      render env out text style =
        ([DrawOp.maskText
            (cx - Int.fdiv (env.bbox.2.2.1 - env.bbox.1) 2,
             cy - Int.fdiv (env.bbox.2.2.2 - env.bbox.2.1) 2) (env.shape text),
          DrawOp.pasteGradient g,
          DrawOp.strokeText
            (cx - Int.fdiv (env.bbox.2.2.1 - env.bbox.1) 2,
             cy - Int.fdiv (env.bbox.2.2.2 - env.bbox.2.1) 2) (env.shape text)
            style.stroke.width none sc,
          DrawOp.compositeLayer] ++
          (if style.rotation ≠ 0 then [DrawOp.rotateImage style.rotation] else []) ++
          [DrawOp.saveImage out], none)) := by
  rw [List.get?_eq_getElem?] at hc0 hc1
  constructor
  · intro hsolid c rgba sc hcol hparse hstroke hsc
    simp [render, fillStep, strokeStep, drawOrigin, hf, hio, hl, hc0, hc1,
      hsolid, hcol, hparse, hstroke, hsc]
  · intro hns cs g sc hcs hcg hstroke hsc
    have hns2 : (style.fill.type == "solid") = false := by
      simp [hns]
    simp [render, fillStep, strokeStep, drawOrigin, hf, hio, hl, hc0, hc1,
      hns2, hcs, hcg, hstroke, hsc]

/-- Witness for the amended C2 at a concrete environment and style. -/
theorem render_origin_witness :
    env0.fontExists = true ∧ strokeStyle.center.get? 0 = some 100 ∧
    strokeStyle.fill.type = "solid" ∧
    render env0 "o.png" "Hi" strokeStyle =
      ([DrawOp.fillText (97, 97) "Hi" ⟨255, 0, 0, 255⟩,
        DrawOp.strokeText (97, 97) "Hi" 2 none ⟨0, 0, 0, 255⟩,
        DrawOp.compositeLayer, DrawOp.saveImage "o.png"], none) := by
  refine ⟨rfl, rfl, rfl, ?_⟩
  have hop : hex_to_rgba "#FF0000" strokeStyle.opacity = some ⟨255, 0, 0, 255⟩ := by
    rw [show strokeStyle.opacity = 1 from rfl]
    exact hex_red
  have h := (render_origin env0 "o.png" "Hi" strokeStyle rfl rfl rfl 100 100
    rfl rfl).1 rfl "#FF0000" ⟨255, 0, 0, 255⟩ ⟨0, 0, 0, 255⟩ rfl hop rfl hex_black
  rw [h]
  norm_num [env0, strokeStyle, baseStyle, Int.fdiv]

theorem hex_alpha_one (s : String) (c : Rgba) (h : hex_to_rgba s 1 = some c) :
    c.a = 255 := by
  simp only [hex_to_rgba] at h
  rcases e1 : parseHexStr ((s.data.dropWhile (· == '#')).take 2) with _ | v1 <;>
    rcases e2 : parseHexStr (((s.data.dropWhile (· == '#')).drop 2).take 2) with _ | v2 <;>
    rcases e3 : parseHexStr (((s.data.dropWhile (· == '#')).drop 4).take 2) with _ | v3 <;>
    rw [e1, e2, e3] at h <;> simp at h
  rw [← h]
  show ratTrunc 255 = 255
  norm_num [ratTrunc]

/-- C4: render applies the global opacity only to solid fill: the solid fill
color is converted at the configured opacity; for a gradient fill the whole
render result is unchanged under any opacity (the two gradient stop colors
are converted at opacity 1, whose alpha is always 255); an enabled stroke is
drawn with fill None and a stroke color converted at opacity 1, alpha 255. -/
theorem render_opacity (env : RenderEnv) (out text : String) (style : StyleModel)
    (hf : env.fontExists = true) (hio : env.imageOk = true)
    (hl : env.fontLoadOk = true) (cx cy : ℤ)
    (hc0 : style.center.get? 0 = some cx) (hc1 : style.center.get? 1 = some cy) :
    (style.fill.type = "solid" → ∀ c rgba, style.fill.color = some c →
      hex_to_rgba c style.opacity = some rgba →
      DrawOp.fillText (drawOrigin env cx cy) (env.shape text) rgba ∈
        (render env out text style).1) ∧
    (style.fill.type ≠ "solid" → ∀ o : ℚ,
      render env out text { style with opacity := o } = render env out text style) ∧
    (∀ s c, hex_to_rgba s 1 = some c → c.a = 255) ∧
    (style.stroke.enabled = true → ∀ sc, hex_to_rgba style.stroke.color 1 = some sc →
      (render env out text style).2 = none →
      DrawOp.strokeText (drawOrigin env cx cy) (env.shape text)
        style.stroke.width none sc ∈ (render env out text style).1 ∧ sc.a = 255) := by
  rw [List.get?_eq_getElem?] at hc0 hc1
  refine ⟨?_, ?_, fun s c h => hex_alpha_one s c h, ?_⟩
  · intro hsolid c rgba hcol hparse
    by_cases hen : style.stroke.enabled = true
    · rcases hsc : hex_to_rgba style.stroke.color 1 with _ | sc <;>
        simp [render, fillStep, strokeStep, hf, hio, hl, hc0, hc1, hsolid,
          hcol, hparse, hen, hsc]
    · simp [render, fillStep, strokeStep, hf, hio, hl, hc0, hc1, hsolid,
        hcol, hparse, hen]
  · intro hns o
    have hns2 : (style.fill.type == "solid") = false := by
      simp [hns]
    simp [render, fillStep, strokeStep, hf, hio, hl, hc0, hc1, hns2]
  · intro hen sc hsc hsucc
    refine ⟨?_, hex_alpha_one _ _ hsc⟩
    by_cases hsolid : (style.fill.type == "solid") = true
    · rcases hcol : style.fill.color with _ | c
      · simp [render, fillStep, hf, hio, hl, hc0, hc1, hsolid, hcol] at hsucc
      rcases hparse : hex_to_rgba c style.opacity with _ | rgba
      · simp [render, fillStep, hf, hio, hl, hc0, hc1, hsolid, hcol, hparse]
          at hsucc
      simp [render, fillStep, strokeStep, hf, hio, hl, hc0, hc1, hsolid, hcol,
        hparse, hen, hsc]
    · rcases hcs : style.fill.colors with _ | cs
      · simp [render, fillStep, hf, hio, hl, hc0, hc1, hsolid, hcs] at hsucc
      rcases hcg : create_gradient (env.imgW, env.imgH) cs style.fill.direction
        with _ | g
      · simp [render, fillStep, hf, hio, hl, hc0, hc1, hsolid, hcs, hcg] at hsucc
      simp [render, fillStep, strokeStep, hf, hio, hl, hc0, hc1, hsolid, hcs,
        hcg, hen, hsc]

/-- Witness for C4: with a gradient fill, changing the opacity from 1 to one
half leaves the render output unchanged. -/
theorem render_opacity_witness :
    gradStyle.fill.type ≠ "solid" ∧
    render env0 "o.png" "Hi" { gradStyle with opacity := 1 / 2 } =
      render env0 "o.png" "Hi" gradStyle := by
  refine ⟨by decide, ?_⟩
  exact (render_opacity env0 "o.png" "Hi" gradStyle rfl rfl rfl 100 100
    rfl rfl).2.1 (by decide) (1 / 2)

/-- C5 as stated is refuted: a fill of type gradient carrying no colors and
no direction passes validation, a fill of type solid carrying no color
passes validation, and a gradient fill carrying three colors also passes. -/
theorem fill_variant_counterexample :
    FillModel.isValidB { type := "gradient" } = true ∧
    FillModel.isValidB { type := "solid" } = true ∧
    FillModel.isValidB { type := "gradient"
                         colors := some ["#000000", "#FFFFFF", "#FF0000"] } = true := by
  decide

/-- C5 (amended): validation does not cross-check the fill variant against
its fields: a whole style whose gradient fill lacks colors and direction,
or whose solid fill lacks a color, still passes validation, and the missing
fields surface only as a render-time failure, with no output written. -/
theorem fill_variant_amended :
    StyleModel.isValidB gradNoColorsStyle = true ∧
    render env0 "o.png" "Hi" gradNoColorsStyle =
      ([DrawOp.maskText (97, 97) "Hi"], some RenderError.gradientColorsError) ∧
    StyleModel.isValidB solidNoColorStyle = true ∧
    render env0 "o.png" "Hi" solidNoColorStyle =
      ([], some RenderError.fillColorError) ∧
    (∀ p, DrawOp.saveImage p ∉ (render env0 "o.png" "Hi" gradNoColorsStyle).1) ∧
    (∀ p, DrawOp.saveImage p ∉ (render env0 "o.png" "Hi" solidNoColorStyle).1) := by
  have hg : render env0 "o.png" "Hi" gradNoColorsStyle =
      ([DrawOp.maskText (97, 97) "Hi"], some RenderError.gradientColorsError) := by
    simp [render, fillStep, strokeStep, drawOrigin, env0, gradNoColorsStyle,
      baseStyle, Int.fdiv]
  have hs : render env0 "o.png" "Hi" solidNoColorStyle =
      ([], some RenderError.fillColorError) := by
    simp [render, fillStep, strokeStep, drawOrigin, env0, solidNoColorStyle,
      baseStyle, Int.fdiv]
  refine ⟨by decide, hg, by decide, hs, ?_, ?_⟩
  · intro p
    rw [hg]
    simp
  · intro p
    rw [hs]
    simp

/-- C9: the fill color validators skip falsy values, so an empty-string fill
color and an empty gradient color list pass validation, while an empty
string on the stroke or shadow color fails. -/
theorem falsy_fill_colors :
    FillModel.color_ok (some "") = true ∧
    FillModel.colors_ok (some []) = true ∧
    FillModel.isValidB { type := "solid", color := some "" } = true ∧
    FillModel.isValidB { type := "gradient"
                         colors := some []
                         direction := some "vertical" } = true ∧
    StrokeModel.color_ok "" = false ∧
    StrokeModel.isValidB { enabled := true, width := 1, color := "" } = false ∧
    ShadowModel.color_ok "" = false ∧
    ShadowModel.isValidB { baseShadow with color := "" } = false := by
  decide

theorem isHexDigitPy_iff (c : Char) : isHexDigitPy c = true ↔ specHexChar c := by
  simp [isHexDigitPy, specHexChar, or_assoc]

theorem re_match_iff (s : String) :
    re_match_hex_color s = true ↔ (specHexColor s ∨ specHexColorNL s) := by
  constructor
  · intro hs
    obtain ⟨d1, d2, d3, d4, d5, d6, t, hdata, ht, h1, h2, h3, h4, h5, h6⟩ :=
      re_match_shape s hs
    rcases ht with ht | ht <;> subst ht
    · left
      refine ⟨[d1, d2, d3, d4, d5, d6], hdata, rfl, ?_⟩
      intro c hc
      simp only [List.mem_cons, List.not_mem_nil, or_false] at hc
      rcases hc with rfl | rfl | rfl | rfl | rfl | rfl <;>
        rw [← isHexDigitPy_iff] <;> assumption
    · right
      refine ⟨[d1, d2, d3, d4, d5, d6], hdata, rfl, ?_⟩
      intro c hc
      simp only [List.mem_cons, List.not_mem_nil, or_false] at hc
      rcases hc with rfl | rfl | rfl | rfl | rfl | rfl <;>
        rw [← isHexDigitPy_iff] <;> assumption
  · intro hs
    rcases hs with ⟨t, ht, hlen, hall⟩ | ⟨t, ht, hlen, hall⟩
    · unfold re_match_hex_color
      rw [ht]
      have hallb : t.all isHexDigitPy = true := by
        rw [List.all_eq_true]
        intro c hc
        rw [isHexDigitPy_iff]
        exact hall c hc
      simp [hlen, hallb]
    · unfold re_match_hex_color
      rw [ht]
      have hallb : (t ++ ['\n']).take 6 = t := by
        rw [← hlen]
        exact List.take_left t _
      have h7 : (t ++ ['\n']).length = 7 := by
        simp [hlen]
      have hlast : (t ++ ['\n']).getLast? = some '\n' := by
        simp [List.getLast?_append]
      have hallb2 : t.all isHexDigitPy = true := by
        rw [List.all_eq_true]
        intro c hc
        rw [isHexDigitPy_iff]
        exact hall c hc
      simp [h7, hallb, hallb2, hlast, hlen]

/-- C6 as stated is refuted twice: the stroke color validator accepts a
valid hex color followed by a trailing newline (extra trailing character),
and the fill color validator accepts the empty string. -/
theorem color_validation_counterexample :
    StrokeModel.color_ok "#00FF00\n" = true ∧ ¬ specHexColor "#00FF00\n" ∧
    FillModel.color_ok (some "") = true ∧ ¬ specHexColor "" := by
  refine ⟨by decide, ?_, by decide, ?_⟩
  · rintro ⟨t, ht, hlen, -⟩
    have e : "#00FF00\n".data = '#' :: ['0', '0', 'F', 'F', '0', '0', '\n'] := rfl
    rw [e] at ht
    simp only [List.cons.injEq, true_and] at ht
    rw [← ht] at hlen
    simp at hlen
  · rintro ⟨t, ht, -, -⟩
    simp at ht

/-- C6 (amended): color validation of stroke and shadow colors succeeds
exactly on strings fully matching the hex pattern, optionally followed by a
single trailing newline (which Python's dollar anchor accepts); fill color
validation additionally accepts the empty string, and each entry of a
nonempty fill colors list is validated by the same rule. -/
theorem color_validation_amended :
    (∀ s, StrokeModel.color_ok s = true ↔ (specHexColor s ∨ specHexColorNL s)) ∧
    (∀ s, ShadowModel.color_ok s = true ↔ (specHexColor s ∨ specHexColorNL s)) ∧
    (∀ s, FillModel.color_ok (some s) = true ↔
      (s = "" ∨ specHexColor s ∨ specHexColorNL s)) ∧
    (∀ l, FillModel.colors_ok (some l) = true ↔
      (∀ s ∈ l, (specHexColor s ∨ specHexColorNL s))) := by
  refine ⟨fun s => re_match_iff s, fun s => re_match_iff s, ?_, ?_⟩
  · intro s
    rcases e : (s == "") with _ | _
    · have hne : ¬ s = "" := by
        simpa using e
      simp [FillModel.color_ok, e, hne, re_match_iff]
    · have heq : s = "" := by
        simpa using e
      simp [FillModel.color_ok, e, heq]
  · intro l
    rcases l with _ | ⟨a, l⟩
    · simp [FillModel.colors_ok]
    · simp [FillModel.colors_ok, List.all_eq_true, re_match_iff]

/-- Witness for the amended C6 at concrete strings. -/
theorem color_validation_amended_witness :
    StrokeModel.color_ok "#00ff00" = true ∧
    StrokeModel.color_ok "hello" = false := by
  constructor
  · have hall : ∀ c ∈ (['0', '0', 'f', 'f', '0', '0'] : List Char), specHexChar c := by
      intro c hc
      rw [← isHexDigitPy_iff]
      fin_cases hc <;> decide
    exact (color_validation_amended.1 "#00ff00").mpr
      (Or.inl ⟨['0', '0', 'f', 'f', '0', '0'], rfl, rfl, hall⟩)
  · rcases e : StrokeModel.color_ok "hello" with _ | _
    · rfl
    · exfalso
      have h := (color_validation_amended.1 "hello").mp e
      rcases h with ⟨t, ht, -, -⟩ | ⟨t, ht, -, -⟩ <;> simp at ht

/-- C7: the numeric range constraints have exactly the claimed boundaries,
shown as exact characterizations over an otherwise-valid style: font_size on
(0, 500] (0 fails, 500 succeeds, 501 fails), stroke width on [0, 100], blur
on [0, 200] for shadow, outer glow and inner shadow, opacity and shadow
opacity on [0, 1], rotation on [-360, 360], line_height on (0, 5]. -/
theorem range_validation :
    (∀ n : ℤ, StyleModel.isValidB { baseStyle with font_size := n } = true ↔
      (0 < n ∧ n ≤ 500)) ∧
    (∀ n : ℤ, StyleModel.isValidB
        { baseStyle with stroke := { baseStyle.stroke with width := n } } = true ↔
      (0 ≤ n ∧ n ≤ 100)) ∧
    (∀ n : ℤ, StyleModel.isValidB
        { baseStyle with shadow := { baseShadow with blur := n } } = true ↔
      (0 ≤ n ∧ n ≤ 200)) ∧
    (∀ n : ℤ, StyleModel.isValidB
        { baseStyle with outer_glow := { baseShadow with blur := n } } = true ↔
      (0 ≤ n ∧ n ≤ 200)) ∧
    (∀ n : ℤ, StyleModel.isValidB
        { baseStyle with inner_shadow := { baseShadow with blur := n } } = true ↔
      (0 ≤ n ∧ n ≤ 200)) ∧
    (∀ q : ℚ, StyleModel.isValidB { baseStyle with opacity := q } = true ↔
      (0 ≤ q ∧ q ≤ 1)) ∧
    (∀ q : ℚ, StyleModel.isValidB
        { baseStyle with shadow := { baseShadow with opacity := q } } = true ↔
      (0 ≤ q ∧ q ≤ 1)) ∧
    (∀ q : ℚ, StyleModel.isValidB { baseStyle with rotation := q } = true ↔
      (-360 ≤ q ∧ q ≤ 360)) ∧
    (∀ q : ℚ, StyleModel.isValidB { baseStyle with line_height := q } = true ↔
      (0 < q ∧ q ≤ 5)) := by
  have h1 : re_match_hex_color "#FF0000" = true := by decide
  have h2 : re_match_hex_color "#000000" = true := by decide
  refine ⟨?_, ?_, ?_, ?_, ?_, ?_, ?_, ?_, ?_⟩ <;> intro n <;>
    simp [StyleModel.isValidB, FillModel.isValidB, StrokeModel.isValidB,
      ShadowModel.isValidB, FillModel.color_ok, FillModel.colors_ok,
      StrokeModel.color_ok, ShadowModel.color_ok, baseStyle, baseShadow, h1, h2]

theorem fillStep_no_save (style : StyleModel) (pos : ℤ × ℤ) (shaped : String)
    (W H : ℕ) (p : String) :
    DrawOp.saveImage p ∉ (fillStep style pos shaped W H).1 := by
  unfold fillStep
  split
  · split
    · simp
    · split <;> simp
  · split
    · simp
    · split <;> simp

theorem strokeStep_no_save (style : StyleModel) (pos : ℤ × ℤ) (shaped : String)
    (p : String) :
    DrawOp.saveImage p ∉ (strokeStep style pos shaped).1 := by
  unfold strokeStep
  split
  · split <;> simp
  · simp

theorem render_outcomes (env : RenderEnv) (out text : String) (style : StyleModel) :
    (∃ ops e, render env out text style = (ops, some e) ∧
      ∀ p, DrawOp.saveImage p ∉ ops) ∨
    (∃ ops1 ops2,
      render env out text style =
        (ops1 ++ ops2 ++ [DrawOp.compositeLayer] ++
          (if style.rotation ≠ 0 then [DrawOp.rotateImage style.rotation] else []) ++
          [DrawOp.saveImage out], none) ∧
      (∀ p, DrawOp.saveImage p ∉ ops1) ∧ (∀ p, DrawOp.saveImage p ∉ ops2)) := by
  rcases hf : env.fontExists with _ | _
  · exact Or.inl ⟨[], RenderError.fontNotFound, by simp [render, hf], by simp⟩
  rcases hio : env.imageOk with _ | _
  · exact Or.inl ⟨[], RenderError.imageOpenError, by simp [render, hf, hio], by simp⟩
  rcases hl : env.fontLoadOk with _ | _
  · exact Or.inl ⟨[], RenderError.fontLoadError, by simp [render, hf, hio, hl],
      by simp⟩
  rcases hc0 : style.center[0]? with _ | cx
  · exact Or.inl ⟨[], RenderError.centerIndexError,
      by simp [render, hf, hio, hl, hc0], by simp⟩
  rcases hc1 : style.center[1]? with _ | cy
  · exact Or.inl ⟨[], RenderError.centerIndexError,
      by simp [render, hf, hio, hl, hc0, hc1], by simp⟩
  rcases hfs : fillStep style (drawOrigin env cx cy) (env.shape text)
      env.imgW env.imgH with ⟨ops1, _ | e1⟩
  · rcases hss : strokeStep style (drawOrigin env cx cy) (env.shape text)
        with ⟨ops2, _ | e2⟩
    · refine Or.inr ⟨ops1, ops2, ?_, ?_, ?_⟩
      · simp [render, hf, hio, hl, hc0, hc1, hfs, hss]
      · intro p
        have := fillStep_no_save style (drawOrigin env cx cy) (env.shape text)
          env.imgW env.imgH p
        rw [hfs] at this
        exact this
      · intro p
        have := strokeStep_no_save style (drawOrigin env cx cy) (env.shape text) p
        rw [hss] at this
        exact this
    · refine Or.inl ⟨ops1 ++ ops2, e2, ?_, ?_⟩
      · simp [render, hf, hio, hl, hc0, hc1, hfs, hss]
      · intro p
        have h1 := fillStep_no_save style (drawOrigin env cx cy) (env.shape text)
          env.imgW env.imgH p
        have h2 := strokeStep_no_save style (drawOrigin env cx cy) (env.shape text) p
        rw [hfs] at h1
        rw [hss] at h2
        simp [h1, h2]
  · refine Or.inl ⟨ops1, e1, ?_, ?_⟩
    · simp [render, hf, hio, hl, hc0, hc1, hfs]
    · intro p
      have := fillStep_no_save style (drawOrigin env cx cy) (env.shape text)
        env.imgW env.imgH p
      rw [hfs] at this
      exact this

/-- C8: a missing font aborts render before any drawing with a
font-not-found error; every failing run performs no save operation; and a
successful run saves exactly once, as the final operation, after the
compositing step and, when rotation is nonzero, after the rotation step. -/
theorem render_failure_atomicity (env : RenderEnv) (out text : String)
    (style : StyleModel) :
    (env.fontExists = false →
      render env out text style = ([], some RenderError.fontNotFound)) ∧
    (env.fontExists = true → env.imageOk = false →
      render env out text style = ([], some RenderError.imageOpenError)) ∧
    (∀ e, (render env out text style).2 = some e →
      ∀ p, DrawOp.saveImage p ∉ (render env out text style).1) ∧
    ((render env out text style).2 = none →
      ∃ pre, (render env out text style).1 = pre ++ [DrawOp.saveImage out] ∧
        (∀ p, DrawOp.saveImage p ∉ pre) ∧ DrawOp.compositeLayer ∈ pre ∧
        (style.rotation ≠ 0 → DrawOp.rotateImage style.rotation ∈ pre)) := by
  refine ⟨fun h => by simp [render, h], fun hf hio => by simp [render, hf, hio],
    ?_, ?_⟩
  · intro e he p
    rcases render_outcomes env out text style with ⟨ops, e2, hr, hns⟩ |
      ⟨ops1, ops2, hr, h1, h2⟩
    · rw [hr]
      exact hns p
    · rw [hr] at he
      simp at he
  · intro hnone
    rcases render_outcomes env out text style with ⟨ops, e2, hr, -⟩ |
      ⟨ops1, ops2, hr, h1, h2⟩
    · rw [hr] at hnone
      simp at hnone
    · refine ⟨ops1 ++ ops2 ++ [DrawOp.compositeLayer] ++
        (if style.rotation ≠ 0 then [DrawOp.rotateImage style.rotation] else []),
        ?_, ?_, by simp, ?_⟩
      · rw [hr]
      · intro p
        have h3 : DrawOp.saveImage p ∉ [DrawOp.compositeLayer] := by simp
        have h4 : DrawOp.saveImage p ∉
            (if style.rotation ≠ 0 then [DrawOp.rotateImage style.rotation]
             else []) := by
          split <;> simp
        simp [List.mem_append, h1 p, h2 p, h3, h4]
      · intro hrot
        simp [hrot]

/-- Witness for C8: with the font missing, render reports font-not-found and
performs nothing. -/
theorem render_failure_atomicity_witness :
    envNoFont.fontExists = false ∧
    render envNoFont "o.png" "Hi" baseStyle =
      ([], some RenderError.fontNotFound) := by
  exact ⟨rfl, (render_failure_atomicity envNoFont "o.png" "Hi" baseStyle).1 rfl⟩

/-- C10: validation puts no length constraint on center or on the shadow
offsets — any integer list, including the empty one, passes — while render
unconditionally indexes center[0] and center[1], so a validated style with a
short center list passes validation and fails only at the indexing step,
with no drawing performed and no output saved. -/
theorem center_unchecked :
    (∀ l : List ℤ, StyleModel.isValidB { baseStyle with center := l } = true) ∧
    (∀ l sh : List ℤ, StyleModel.isValidB
        { baseStyle with
          center := l
          shadow := { baseShadow with offset := sh } } = true) ∧
    StyleModel.isValidB shortCenterStyle = true ∧
    render env0 "o.png" "Hi" shortCenterStyle =
      ([], some RenderError.centerIndexError) ∧
    (∀ p, DrawOp.saveImage p ∉ (render env0 "o.png" "Hi" shortCenterStyle).1) := by
  have hre1 : re_match_hex_color "#FF0000" = true := by decide
  have hre2 : re_match_hex_color "#000000" = true := by decide
  have hr : render env0 "o.png" "Hi" shortCenterStyle =
      ([], some RenderError.centerIndexError) := by
    simp [render, shortCenterStyle, baseStyle, env0]
  refine ⟨?_, ?_, by decide, hr, ?_⟩
  · intro l
    simp [StyleModel.isValidB, FillModel.isValidB, StrokeModel.isValidB,
      ShadowModel.isValidB, FillModel.color_ok, FillModel.colors_ok,
      StrokeModel.color_ok, ShadowModel.color_ok, baseStyle, baseShadow,
      hre1, hre2]
  · intro l sh
    simp [StyleModel.isValidB, FillModel.isValidB, StrokeModel.isValidB,
      ShadowModel.isValidB, FillModel.color_ok, FillModel.colors_ok,
      StrokeModel.color_ok, ShadowModel.color_ok, baseStyle, baseShadow,
      hre1, hre2]
  · intro p
    rw [hr]
    simp
